import Mathlib

/-!
Verification of the retrieval-and-filtering pipeline of the
Recommendation-System repository (`backend/app/main.py`).

The embedding below translates the pure decision logic of the source into
Lean functions.  Python strings are modelled as `String` (operations over
their character lists), Python floats as `ℚ`, absent/`None` values as
`Option`, and Python dicts of extracted filters as records of `Option`
fields whose truthiness (`if filters.get(k):`) is modelled explicitly
(`None`, `0`, and `""` are falsy).  Each model call (`llm.invoke`) is an
external effect: its realized outcome is passed in as an explicit argument
(`Option String` for a single call, a function `String → String` for the
per-candidate classifier).
-/

namespace RecSpec

/-! ## Python string primitives -/

/-- Lower-casing of a character list, modelling Python `str.lower()`
(identical on the ASCII data this service handles). -/
def lowerChars (cs : List Char) : List Char := cs.map Char.toLower

/-- Python `str.lower()` on a `String`. -/
def pyLower (s : String) : String := ⟨lowerChars s.data⟩

/-- Does `needle` occur at the head of `hay`? (helper for substring search). -/
def matchesAt : List Char → List Char → Bool
  | [], _ => true
  | _ :: _, [] => false
  | a :: as, b :: bs => (a = b) && matchesAt as bs

/-- Does `needle` occur contiguously anywhere in `hay`? -/
def occursIn (needle : List Char) : List Char → Bool
  | [] => matchesAt needle []
  | c :: cs => matchesAt needle (c :: cs) || occursIn needle cs

/-- Python's `needle in hay` membership test on strings (case-sensitive;
call sites lower their operands exactly where the source does). -/
def pyIn (needle hay : String) : Bool := occursIn needle.data hay.data

/-- Python `str.strip()`: whitespace removed from both ends (identical on
the ASCII data this service handles). -/
def pyStrip (s : String) : String :=
  ⟨((s.data.dropWhile Char.isWhitespace).reverse.dropWhile Char.isWhitespace).reverse⟩

/-- Python truthiness of an optional number (`None` and `0` are falsy). -/
def qTruthy : Option ℚ → Bool
  | none => false
  | some x => x ≠ 0

/-- Python truthiness of an optional string (`None` and `""` are falsy). -/
def sTruthy : Option String → Bool
  | none => false
  | some s => s ≠ ""

/-! ## Price parsing (`extract_price`, main.py lines 243-248) -/

/-- Removal of `'$'` and `','`, modelling
`price_str.replace('$', '').replace(',', '')`. -/
def removeSyms (cs : List Char) : List Char :=
  cs.filter (fun c => c ≠ '$' && c ≠ ',')

/-- The text matched by the regex `\d+\.?\d*` when anchored at `cs`
(which starts with a digit): a maximal digit run, then optionally a dot
and a further maximal digit run. -/
def numToken (cs : List Char) : List Char :=
  let ip := cs.takeWhile Char.isDigit
  match cs.dropWhile Char.isDigit with
  | '.' :: rest => ip ++ '.' :: rest.takeWhile Char.isDigit
  | _ => ip

/-- Leftmost match of `\d+\.?\d*` (`re.search`): scan to the first digit
and take the token anchored there. -/
def findNumToken : List Char → Option (List Char)
  | [] => none
  | c :: cs => if c.isDigit then some (numToken (c :: cs)) else findNumToken cs

/-- Numeric value of a decimal digit character. -/
def digitVal (c : Char) : ℕ := c.toNat - '0'.toNat

/-- Value of a digit run read in base 10. -/
def natOfDigits (cs : List Char) : ℕ :=
  cs.foldl (fun n c => 10 * n + digitVal c) 0

/-- Python `float(...)` applied to a matched numeric token
(integer part, optional dot, fractional part). -/
def ratOfToken (tok : List Char) : ℚ :=
  let ip := tok.takeWhile Char.isDigit
  match tok.dropWhile Char.isDigit with
  | '.' :: fp => (natOfDigits ip : ℚ) + (natOfDigits fp : ℚ) / ((10 : ℚ) ^ fp.length)
  | _ => (natOfDigits ip : ℚ)

/-- Embedding of `extract_price` (main.py 243-248): `None`, the empty
string and `'N/A'` yield no price; otherwise the first `\d+\.?\d*` token of
the string stripped of `'$'` and `','` is parsed, absent a match `None`. -/
def extract_price (price_str : Option String) : Option ℚ :=
  match price_str with
  | none => none
  | some s =>
    if s = "" || s = "N/A" then none
    else
      match findNumToken (removeSyms s.data) with
      | none => none
      | some tok => some (ratOfToken tok)

/-! ## Data model (Pydantic `Product`, main.py 182-192) -/

/-- A previously shown product as re-sent by the caller
(`class Product(BaseModel)`, main.py 182-192). -/
structure Product where
  id : String
  title : String
  image : Option String := none
  price : Option String := none
  key_features : Option (List String) := none
  best_for : Option String := none
  dimensions : Option String := none
  material : Option String := none
  color : Option String := none
  brand : Option String := none
deriving DecidableEq, Repr

/-- The follow-up filter dict extracted from the user request
(main.py 365-404): each key optional, with Python truthiness at use sites. -/
structure Filters where
  price_max : Option ℚ := none
  color : Option String := none
  size : Option String := none
  material : Option String := none
  brand : Option String := none
deriving DecidableEq, Repr

/-- The all-null filter record (`filters = {}` with every `get` missing). -/
def nullFilters : Filters := {}

/-! ## Filter Engine predicates (follow-up loop, main.py 407-466) -/

/-- Price predicate of the follow-up path (main.py 412-417):
skipped when `filters.get('price_max')` is falsy (`None` or `0`); a product
is rejected only when its parsed price is truthy (non-`None` and nonzero)
and exceeds the bound. -/
def pricePassFollowup (pmax : Option ℚ) (price_str : Option String) : Bool :=
  match pmax with
  | none => true
  | some pm =>
    if pm = 0 then true
    else
      match extract_price price_str with
      | none => true
      | some v => if v = 0 then true else decide (v ≤ pm)

/-- Shared shape of the color and material predicates
(main.py 420-427, 444-451 on the follow-up path and 582-588, 590-595 on
the fresh-search path): the lower-cased requested value must occur in the
lower-cased title or in the lower-cased metadata field (`None` read as
`''`); a falsy request (`None`/`''`) imposes no constraint. -/
def attrPass (req : Option String) (title : String) (meta : Option String) : Bool :=
  if sTruthy req then
    let r := pyLower (req.getD "")
    pyIn r (pyLower title) || pyIn r (pyLower (meta.getD ""))
  else true

/-- Size predicate (main.py 430-441): `large`/`small` demand one of a fixed
keyword set in the lower-cased title; any other size value is a pass. -/
def sizePass (req : Option String) (title : String) : Bool :=
  if sTruthy req then
    let size := pyLower (req.getD "")
    let tl := pyLower title
    if size = "large" then
      ["large", "oversized", "big", "xl", "king", "queen"].any (fun w => pyIn w tl)
    else if size = "small" then
      ["small", "compact", "mini", "twin"].any (fun w => pyIn w tl)
    else true
  else true

/-- Brand predicate (main.py 453-460): the lower-cased requested brand must
occur in the lower-cased brand metadata field (`None` read as `''`); the
title is not consulted. -/
def brandPass (req : Option String) (brand_meta : Option String) : Bool :=
  if sTruthy req then pyIn (pyLower (req.getD "")) (pyLower (brand_meta.getD ""))
  else true

/-- Keep/reject decision of the follow-up loop body (main.py 409-460), with
the source's short-circuit order: price, color, size, material, brand. -/
def keepProduct (f : Filters) (p : Product) : Bool :=
  pricePassFollowup f.price_max p.price &&
  attrPass f.color p.title p.color &&
  sizePass f.size p.title &&
  attrPass f.material p.title p.material &&
  brandPass f.brand p.brand

/-- The follow-up Filter Engine (main.py 407-466): the accumulation loop
keeps, in input order, exactly the products `keepProduct` accepts. -/
def applyFilters (f : Filters) : List Product → List Product
  | [] => []
  | p :: ps => if keepProduct f p then p :: applyFilters f ps else applyFilters f ps

/-- Case-insensitive substring occurrence, the matching notion the spec
uses for the color/material/brand predicates. -/
def ciSubstr (needle hay : String) : Bool := pyIn (pyLower needle) (pyLower hay)

/-! ## Product Classifier (`classify_product_title`, main.py 202-230) -/

/-- The validation list of main.py line 209 (note that it carries
`"sports"`, which the classifier prompt itself does not offer). -/
def valid_categories : List String :=
  ["sofa", "chair", "bed", "table", "ottoman", "storage", "sports", "other"]

/-- Keyword fallback of the classifier (main.py 214-226): fixed-priority
scan of the lower-cased title. -/
def classifyFallback (title : String) : String :=
  let tl := pyLower title
  if ["sofa", "couch", "sectional", "loveseat"].any (fun w => pyIn w tl) then "sofa"
  else if ["chair", "recliner"].any (fun w => pyIn w tl) then "chair"
  else if ["bed", "bedframe"].any (fun w => pyIn w tl) then "bed"
  else if ["table", "desk"].any (fun w => pyIn w tl) then "table"
  else if ["ottoman", "footstool"].any (fun w => pyIn w tl) then "ottoman"
  else "other"

/-- Embedding of `classify_product_title` (main.py 202-230).  `modelOut` is
the realized outcome of the model call: `none` when the call raises (the
`except` branch returns `"other"`), `some r` when it returns text `r`,
which is stripped, lower-cased and validated; an unknown word falls back to
the keyword scan. -/
def classify_product_title (modelOut : Option String) (title : String) : String :=
  match modelOut with
  | none => "other"
  | some result =>
    let category := pyLower (pyStrip result)
    if valid_categories.any (fun c => category = c) then category
    else classifyFallback title

/-! ## Fresh-search candidates (main.py 503-679) -/

/-- Metadata record of a vector-index match (`match['metadata']`, an open
string map read with `.get(key, default)`; absent keys are `none`). -/
structure Meta where
  title : Option String := none
  material : Option String := none
  color : Option String := none
  price : Option String := none
  image : Option String := none
  brand : Option String := none
  package_dimensions : Option String := none
  description : Option String := none
deriving DecidableEq, Repr

/-- One ranked match returned by the vector index (`results['matches']`). -/
structure Candidate where
  id : String
  score : ℚ
  metadata : Meta
deriving DecidableEq, Repr

/-- The dict parsed from the query-extraction model call (main.py 507-515):
`category` read with default `"other"`, the other keys by plain `get`. -/
structure SearchParams where
  category : Option String := none
  material : Option String := none
  color : Option String := none
  price_max : Option ℚ := none
deriving DecidableEq, Repr

/-- Price predicate of the fresh-search path (main.py 597-602); the same
logic as `pricePassFollowup`, applied to `match['metadata'].get('price', '')`. -/
def pricePassSearch (pmax : Option ℚ) (price_str : String) : Bool :=
  match pmax with
  | none => true
  | some pm =>
    if pm = 0 then true
    else
      match extract_price (some price_str) with
      | none => true
      | some v => if v = 0 then true else decide (v ≤ pm)

/-- Keep/reject decision of the fresh-search candidate loop
(main.py 563-605): a classified-category mismatch against a non-`"other"`
requested category excludes outright (the `continue`); survivors face the
material, color and price predicates in that order.  `cls` is the realized
per-title outcome of `classify_product_title` for this request. -/
def candKeep (category : String) (params : SearchParams) (cls : String → String)
    (m : Candidate) : Bool :=
  let title := m.metadata.title.getD ""
  if category ≠ "other" && cls title ≠ category then false
  else
    attrPass params.material title m.metadata.material &&
    attrPass params.color title m.metadata.color &&
    pricePassSearch params.price_max (m.metadata.price.getD "")

/-- The fresh-search filtering loop (main.py 561-605): keeps, in ranked
order, exactly the candidates `candKeep` accepts. -/
def searchFilter (category : String) (params : SearchParams) (cls : String → String) :
    List Candidate → List Candidate
  | [] => []
  | m :: ms =>
    if candKeep category params cls m then m :: searchFilter category params cls ms
    else searchFilter category params cls ms

/-! ## Result Selector (main.py 609-636) -/

/-- The `is_perfect_match` flag (main.py 610-617): leader score above 0.90
and either a lone survivor or a gap above 0.05 to the runner-up. -/
def is_perfect_match (ms : List Candidate) : Bool :=
  match ms with
  | [] => false
  | [a] => decide (a.score > 9/10)
  | a :: b :: _ => decide (a.score > 9/10) && decide (a.score - b.score > 1/20)

/-- The truncation cascade (main.py 619-636): empty stays empty, a perfect
match keeps only the leader, one or two survivors are kept whole, three or
more are cut to the top 3. -/
def selectMatched (ms : List Candidate) : List Candidate :=
  if ms.length = 0 then ms
  else if is_perfect_match ms then ms.take 1
  else if ms.length = 1 then ms
  else if ms.length = 2 then ms
  else ms.take 3

/-- The perfect-match condition as the spec words it (§4.6): leader score
strictly above 0.90, and either the list is a singleton or the leader
exceeds the runner-up by strictly more than 0.05.  Stated separately from
`is_perfect_match` so the policy theorem compares code against spec. -/
def perfectMatchSpec (ms : List Candidate) : Bool :=
  match ms with
  | [] => false
  | [a] => decide (a.score > 9/10)
  | a :: b :: _ => decide (a.score > 9/10) && decide (a.score - b.score > 1/20)

/-! ## Response payloads -/

/-- The tagged union returned by the endpoint, parametrized by the shape of
a recommendation item (a re-sent `Product` on the follow-up path, a freshly
built record on the search path). -/
inductive Resp (α : Type) where
  | greeting (response : String)
  | answer (response : String)
  | products (recommendations : List α) (response : String)
  | noResults (response : String)
deriving DecidableEq, Repr

/-- Number of recommendation items a response carries (0 unless it is a
`products` response). -/
def recCount {α : Type} : Resp α → ℕ
  | .products recs _ => recs.length
  | _ => 0

/-- Python's `round(x, 3)` (round half to even at the third decimal). -/
def round3 (x : ℚ) : ℚ :=
  let y := x * 1000
  let f := Int.floor y
  let r := y - (f : ℚ)
  let n : ℤ :=
    if r < 1/2 then f
    else if r > 1/2 then f + 1
    else if f % 2 = 0 then f else f + 1
  (n : ℚ) / 1000

/-- A freshly built recommendation entry (main.py 653-665).  The
presentation-only fields `key_features` and `best_for`, produced by
`generate_summary` (main.py 250-294), are not modelled: no verified claim
concerns them. -/
structure Rec where
  id : String
  title : String
  image : Option String
  price : String
  brand : Option String
  score : ℚ
  dimensions : Option String
  material : Option String
  color : Option String
deriving DecidableEq, Repr

/-- Construction of one recommendation entry from a surviving candidate
(main.py 653-665), with the source's defaults for missing metadata. -/
def mkRec (m : Candidate) : Rec :=
  { id := m.id
    title := m.metadata.title.getD "Product"
    image := m.metadata.image
    price := m.metadata.price.getD "N/A"
    brand := m.metadata.brand
    score := round3 m.score
    dimensions := m.metadata.package_dimensions
    material := m.metadata.material
    color := m.metadata.color }

/-- The canned non-furniture reply (main.py 520-523). -/
def furnitureStoreMsg : String :=
  "I couldn't find any furniture matching your search. This is a furniture store - try searching for sofas, beds, chairs, tables, or other home furnishings."

/-- The result-count message of the search path (main.py 667-673). -/
def searchMsg (num : ℕ) : String :=
  if num = 1 then "I found the perfect match:"
  else if num = 2 then "I found 2 great options:"
  else "I found " ++ toString num ++ " products:"

/-- The fresh-search branch of the endpoint (main.py 503-679), from the
parsed query params onward.  `cls` is the realized classifier outcome per
title and `indexMatches` the ranked list the vector index returned; the
non-furniture check precedes every use of either. -/
def searchRespond (params : SearchParams) (cls : String → String)
    (indexMatches : List Candidate) : Resp Rec :=
  let category := params.category.getD "other"
  if category = "sports" || category = "electronics" then
    .noResults furnitureStoreMsg
  else if indexMatches = [] then
    .noResults "I couldn't find any products."
  else
    let matched := searchFilter category params cls indexMatches
    let selected := selectMatched matched
    if selected = [] then
      .noResults "I couldn't find any furniture matching your search. Try different keywords or filters."
    else
      .products (selected.map mkRec) (searchMsg (selected.map mkRec).length)

/-- Python `sep.join(parts)`. -/
def joinSep (sep : String) : List String → String
  | [] => ""
  | [s] => s
  | s :: rest => s ++ sep ++ joinSep sep rest

/-- The human-readable constraint descriptions assembled when a follow-up
filter empties the list (main.py 481-491); numeric rendering of the price
bound uses `ℚ`'s printer in place of Python's float formatting. -/
def filterDesc (f : Filters) : List String :=
  (if qTruthy f.price_max then ["under $" ++ toString (f.price_max.getD 0)] else []) ++
  (if sTruthy f.color then ["in " ++ f.color.getD ""] else []) ++
  (if sTruthy f.material then ["made of " ++ f.material.getD ""] else []) ++
  (if sTruthy f.size then ["in " ++ f.size.getD "" ++ " size"] else []) ++
  (if sTruthy f.brand then ["from " ++ f.brand.getD ""] else [])

/-- The follow-up branch of the endpoint (main.py 407-501), from the
extracted filter record onward: apply the Filter Engine, truncate survivors
to 3, or explain the empty result. -/
def followupRespond (f : Filters) (lastProducts : List Product) : Resp Product :=
  let filtered := applyFilters f lastProducts
  if filtered ≠ [] then
    let filtered3 := filtered.take 3
    let num := filtered3.length
    .products filtered3
      ("I found " ++ toString num ++ " product" ++ (if num > 1 then "s" else "") ++
        " matching your criteria:")
  else
    let desc := filterDesc f
    if desc = [] then .noResults "None of the displayed products match those criteria."
    else
      .noResults
        ("None of the displayed products are " ++ joinSep " and " desc ++
          ". Try adjusting your filters.")

/-! ## Helper lemmas -/

/-- The regex search finds nothing in a digit-free character list. -/
lemma findNumToken_eq_none {cs : List Char} (h : ∀ c ∈ cs, c.isDigit = false) :
    findNumToken cs = none := by
  induction cs with
  | nil => rfl
  | cons c cs ih =>
    have hc : c.isDigit = false := h c (List.mem_cons_self c cs)
    simp only [findNumToken, hc]
    exact ih fun d hd => h d (List.mem_cons_of_mem c hd)

/-- A missing, `'N/A'`, or digit-free price string parses to nothing. -/
lemma extract_price_eq_none {price : Option String}
    (h : price = none ∨ price = some "N/A" ∨
      ∀ c ∈ (price.getD "").data, c.isDigit = false) :
    extract_price price = none := by
  rcases h with h | h | h
  · rw [h]; rfl
  · rw [h]; rfl
  · match price with
    | none => rfl
    | some s =>
      simp only [Option.getD_some] at h
      simp only [extract_price]
      split
      · rfl
      · rw [findNumToken_eq_none]
        intro c hc
        exact h c (List.mem_of_mem_filter hc)

/-- The follow-up Filter Engine is the list filter of `keepProduct`. -/
lemma applyFilters_eq_filter (f : Filters) (ps : List Product) :
    applyFilters f ps = ps.filter (keepProduct f) := by
  induction ps with
  | nil => rfl
  | cons p ps ih => by_cases h : keepProduct f p <;> simp [applyFilters, List.filter, h, ih]

/-! ## C7: the all-null FilterSpec is the identity -/

/-- C7: applying the Filter Engine with a FilterSpec whose fields are all
null (no price_max, color, size, material, or brand constraint) returns the
input product list unchanged, in the same order. -/
theorem null_filters_identity (ps : List Product) :
    applyFilters nullFilters ps = ps := by
  induction ps with
  | nil => rfl
  | cons p ps ih =>
    have hk : keepProduct nullFilters p = true := rfl
    simp [applyFilters, hk, ih]

/-! ## C9: the Filter Engine is idempotent -/

/-- C9: re-running the Filter Engine on its own output with the same
FilterSpec yields that output unchanged. -/
theorem filter_engine_idempotent (f : Filters) (ps : List Product) :
    applyFilters f (applyFilters f ps) = applyFilters f ps := by
  induction ps with
  | nil => rfl
  | cons p ps ih =>
    by_cases h : keepProduct f p <;> simp [applyFilters, h, ih]

/-! ## C8: unparsable prices are never rejected -/

/-- C8: a product whose price string is missing, `'N/A'`, or free of any
numeric token is never rejected by the price predicate, whatever the
price_max constraint. -/
theorem unparsable_price_never_rejected (pm : Option ℚ) (price : Option String)
    (h : price = none ∨ price = some "N/A" ∨
      ∀ c ∈ (price.getD "").data, c.isDigit = false) :
    pricePassFollowup pm price = true := by
  have hep : extract_price price = none := extract_price_eq_none h
  match pm with
  | none => rfl
  | some pmv =>
    simp only [pricePassFollowup, hep]
    split <;> rfl

/-- Witness for C8 at price string `'N/A'` and bound 100. -/
theorem unparsable_price_never_rejected_witness :
    ((some "N/A" : Option String) = none ∨ (some "N/A" : Option String) = some "N/A" ∨
      ∀ c ∈ ((some "N/A" : Option String).getD "").data, c.isDigit = false) ∧
    pricePassFollowup (some 100) (some "N/A") = true :=
  ⟨Or.inr (Or.inl rfl),
    unparsable_price_never_rejected (some 100) (some "N/A") (Or.inr (Or.inl rfl))⟩

/-! ## C10: zero is absence in the price predicates of both paths -/

/-- C10: on both the follow-up and the fresh-search path, a price_max
constraint of 0 is falsy and imposes no constraint, and a product whose
parsed price is exactly 0 is falsy and is never rejected by any bound. -/
theorem zero_price_is_absence (pm : ℚ) (price : Option String) (t : String) :
    pricePassFollowup (some 0) price = true ∧
    pricePassSearch (some 0) t = true ∧
    (extract_price price = some 0 → pricePassFollowup (some pm) price = true) ∧
    (extract_price (some t) = some 0 → pricePassSearch (some pm) t = true) := by
  refine ⟨by simp [pricePassFollowup], by simp [pricePassSearch], ?_, ?_⟩
  · intro h
    by_cases hpm : pm = 0 <;> simp [pricePassFollowup, h, hpm]
  · intro h
    by_cases hpm : pm = 0 <;> simp [pricePassSearch, h, hpm]

/-- Witness for C10 at price string `'$0.00'` and bound 50. -/
theorem zero_price_is_absence_witness :
    extract_price (some "$0.00") = some 0 ∧
    pricePassFollowup (some 50) (some "$0.00") = true ∧
    pricePassSearch (some 50) "$0.00" = true := by
  have h : extract_price (some "$0.00") = some 0 := by
    simp +decide [extract_price, findNumToken, removeSyms, numToken, ratOfToken,
      natOfDigits, digitVal]
  exact ⟨h, (zero_price_is_absence 50 (some "$0.00") "$0.00").2.2.1 h,
    (zero_price_is_absence 50 (some "$0.00") "$0.00").2.2.2 h⟩

/-! ## C3: the brand predicate reads only the brand metadata field -/

/-- Counterexample to C3: the requested brand `FANYE` occurs
(case-insensitively) in the product's title, the brand metadata field is
absent, and the Filter Engine nevertheless rejects the product — a title
match does not suffice. -/
theorem brand_title_match_rejected :
    keepProduct { brand := some "FANYE" }
      { id := "p1", title := "FANYE Oversized Sofa Couch" } = false ∧
    ciSubstr "FANYE" "FANYE Oversized Sofa Couch" = true := by decide

/-- C3 (amended): with a non-empty brand constraint (and no other
constraint), a product passes the Filter Engine exactly when the requested
brand occurs as a case-insensitive substring of its brand metadata field
(read as empty when absent); the title is not consulted. -/
theorem brand_predicate_metadata_only (b : String) (p : Product) (hb : b ≠ "") :
    keepProduct { brand := some b } p = ciSubstr b (p.brand.getD "") := by
  simp [keepProduct, pricePassFollowup, attrPass, sizePass, brandPass, sTruthy, hb,
    ciSubstr]

/-- Witness for the amended C3: brand `fanye` against metadata
`FANYE Corp`. -/
theorem brand_predicate_metadata_only_witness :
    ("fanye" : String) ≠ "" ∧
    keepProduct { brand := some "fanye" }
        { id := "w1", title := "Oversized Sofa", brand := some "FANYE Corp" } =
      ciSubstr "fanye"
        (({ id := "w1", title := "Oversized Sofa",
            brand := some "FANYE Corp" } : Product).brand.getD "") :=
  ⟨by decide,
    brand_predicate_metadata_only "fanye"
      { id := "w1", title := "Oversized Sofa", brand := some "FANYE Corp" } (by decide)⟩

/-! ## C1: the Result Selector policy -/

/-- The code's perfect-match flag computes exactly the spec's perfect-match
condition. -/
lemma perfectMatchSpec_eq_flag (ms : List Candidate) :
    perfectMatchSpec ms = is_perfect_match ms := by
  rcases ms with _ | ⟨a, _ | ⟨b, rest⟩⟩ <;> rfl

/-- The truncation cascade always amounts to a take of 1 (perfect match) or
3 (otherwise). -/
lemma selectMatched_eq_take (ms : List Candidate) :
    selectMatched ms = ms.take (if is_perfect_match ms then 1 else 3) := by
  rcases ms with _ | ⟨a, _ | ⟨b, _ | ⟨c, rest⟩⟩⟩
  · rfl
  · cases h : is_perfect_match [a] <;> simp [selectMatched, h]
  · cases h : is_perfect_match [a, b] <;> simp [selectMatched, h]
  · cases h : is_perfect_match (a :: b :: c :: rest) <;> simp [selectMatched, h]

/-- C1: the Result Selector returns the empty list on no survivors, the
whole list on one or two survivors, and the top 3 in ranked order on three
or more — except that the spec's perfect-match condition (leader score
above 0.90 and either a singleton list or a gap above 0.05 to the
runner-up) forces exactly the leader alone. -/
theorem result_selector_policy (ms : List Candidate) :
    selectMatched ms = ms.take (if perfectMatchSpec ms then 1 else 3) ∧
    (selectMatched ms).length = min ms.length (if perfectMatchSpec ms then 1 else 3) := by
  rw [perfectMatchSpec_eq_flag]
  refine ⟨selectMatched_eq_take ms, ?_⟩
  rw [selectMatched_eq_take ms, List.length_take, Nat.min_comm]

/-! ## C2: the classifier's output set -/

/-- Refutation of C2 on the code as written: the validation list of
main.py line 209 contains `"sports"`, so a model call returning `sports`
(which the classifier prompt itself forbids) is passed through, escaping
the documented output set {sofa, chair, bed, table, ottoman, storage,
other}. -/
theorem classifier_emits_sports :
    classify_product_title (some "sports") "Treadmill Running Machine" = "sports" ∧
    "sports" ∉ ["sofa", "chair", "bed", "table", "ottoman", "storage", "other"] := by
  refine ⟨by rfl, ?_⟩
  decide

/-! ## C4: at most three recommendations -/

/-- The selector never keeps more than three candidates. -/
lemma selectMatched_length_le (ms : List Candidate) :
    (selectMatched ms).length ≤ 3 := by
  rw [selectMatched_eq_take ms]
  refine le_trans (List.length_take_le _ _) ?_
  split <;> omega

/-- The single candidate used to instantiate the fresh-search theorems. -/
def wCand : Candidate :=
  { id := "w2", score := 1/2, metadata := { title := some "Garden Hose Reel" } }

/-- C4: every `products` response — built by the follow-up filtering branch
or the fresh-search branch — carries at most 3 recommendation items. -/
theorem products_response_at_most_three (f : Filters) (ps : List Product)
    (params : SearchParams) (cls : String → String) (idx : List Candidate) :
    recCount (followupRespond f ps) ≤ 3 ∧ recCount (searchRespond params cls idx) ≤ 3 := by
  constructor
  · simp only [followupRespond]
    split
    · simp [recCount]
    · split <;> simp [recCount]
  · simp only [searchRespond]
    split
    · simp [recCount]
    · split
      · simp [recCount]
      · split
        · simp [recCount]
        · simpa [recCount] using selectMatched_length_le _

/-! ## C5: category mismatch excludes outright -/

/-- A candidate whose classified category differs from a non-`other`
requested category fails the keep decision before any metadata predicate. -/
lemma candKeep_of_mismatch (category : String) (params : SearchParams)
    (cls : String → String) (m : Candidate) (hcat : category ≠ "other")
    (hcls : cls (m.metadata.title.getD "") ≠ category) :
    candKeep category params cls m = false := by
  simp [candKeep, hcat, hcls]

/-- C5: in a fresh search, any candidate whose classified category differs
from a non-`other` requested category is absent from the filtered list,
whatever its material, color, or price would have satisfied. -/
theorem category_mismatch_excluded (category : String) (params : SearchParams)
    (cls : String → String) (ms : List Candidate) (m : Candidate)
    (hcat : category ≠ "other")
    (hcls : cls (m.metadata.title.getD "") ≠ category) :
    m ∉ searchFilter category params cls ms := by
  induction ms with
  | nil => simp [searchFilter]
  | cons x ms ih =>
    simp only [searchFilter]
    split
    · intro hmem
      rcases List.mem_cons.mp hmem with rfl | hmem
      · rename_i hkeep
        rw [candKeep_of_mismatch category params cls m hcat hcls] at hkeep
        exact Bool.false_ne_true hkeep
      · exact ih hmem
    · exact ih

/-- A constant classifier outcome, used to instantiate theorems whose
statements abstract over the realized classification. -/
def constOther : String → String := fun _ => "other"

/-- Witness for C5: a `sofa` search over one candidate classified
`other`. -/
theorem category_mismatch_excluded_witness :
    ("sofa" : String) ≠ "other" ∧
    constOther (wCand.metadata.title.getD "") ≠ "sofa" ∧
    wCand ∉ searchFilter "sofa" {} constOther [wCand] :=
  ⟨by decide, by decide,
    category_mismatch_excluded "sofa" {} constOther [wCand] wCand (by decide) (by decide)⟩

/-! ## C6: non-furniture categories short-circuit -/

/-- C6: whenever the extracted category is `sports` or `electronics`, the
fresh-search branch answers `no_results` with the canned furniture-store
message, for every classifier outcome and every vector-index result list —
no index content contributes. -/
theorem nonfurniture_shortcircuit (params : SearchParams) (cls : String → String)
    (idx : List Candidate)
    (h : params.category = some "sports" ∨ params.category = some "electronics") :
    searchRespond params cls idx = Resp.noResults furnitureStoreMsg := by
  rcases h with h | h <;> simp [searchRespond, h]

/-- Witness for C6: a `sports` query over a nonempty index result list. -/
theorem nonfurniture_shortcircuit_witness :
    (({ category := some "sports" } : SearchParams).category = some "sports" ∨
      ({ category := some "sports" } : SearchParams).category = some "electronics") ∧
    searchRespond { category := some "sports" } constOther
        [{ id := "w3", score := 99/100, metadata := { title := some "Leather Sofa" } }] =
      Resp.noResults furnitureStoreMsg :=
  ⟨Or.inl rfl, nonfurniture_shortcircuit _ constOther _ (Or.inl rfl)⟩

end RecSpec
